import Mathlib

/-!
Shallow embedding of `src/api_integration_and_data_pipeline/
wix-api-integration-and-data-pipeline-task.py`.

DataFrames are modelled as lists of rows.  Prices and exchange rates are
modelled as exact rationals (`Rat`); the Python code only multiplies two
values, so the embedding is exact where the float code is approximate.
HTTP interactions are modelled by inductive "environment" types that record
which branch of the fetcher's `try`/`except`/status logic the external world
drives the function into; the fetcher definitions then follow the Python
control flow on that environment.  A Python function that can return `None`
is embedded with an `Option` result, `none` standing for Python `None`.
-/

/-- A price snapshot as produced by the stock provider: one record per
(ticker, date), every price field nullable, absent fields omitted. -/
structure PriceSnapshot where
  ticker : String
  date : String
  priceOpen : Option Rat
  priceHigh : Option Rat
  priceLow : Option Rat
  priceClose : Option Rat
  priceAfterHours : Option Rat
  pricePreMarket : Option Rat
  deriving DecidableEq, Repr

/-- The single-row wide DataFrame `pd.DataFrame([data])` built by
`fetch_stock_data`: the `symbol` and `from` columns plus one column per
present price field, keyed by the provider's column names
(`afterHours`, `preMarket` before the rename). -/
structure WideRow where
  symbol : String
  fromDate : String
  prices : List (String × Rat)
  deriving DecidableEq, Repr

/-- The wide row corresponding to a snapshot: absent fields are omitted,
column names are the provider's (`open`, `high`, `low`, `close`,
`afterHours`, `preMarket`). -/
def PriceSnapshot.toWide (s : PriceSnapshot) : WideRow :=
  { symbol := s.ticker
    fromDate := s.date
    prices :=
      [("open", s.priceOpen), ("high", s.priceHigh), ("low", s.priceLow),
       ("close", s.priceClose), ("afterHours", s.priceAfterHours),
       ("preMarket", s.pricePreMarket)].filterMap
        (fun p => p.2.map (fun v => (p.1, v))) }

/-- Number of non-null price fields of a snapshot. -/
def PriceSnapshot.numFields (s : PriceSnapshot) : Nat :=
  [s.priceOpen, s.priceHigh, s.priceLow, s.priceClose, s.priceAfterHours,
   s.pricePreMarket].countP Option.isSome

/-- The source price field a long `price_type` string refers to, after the
`afterHours → after_hours`, `preMarket → pre_market` rename. -/
def PriceSnapshot.fieldByType (s : PriceSnapshot) : String → Option Rat
  | "open" => s.priceOpen
  | "high" => s.priceHigh
  | "low" => s.priceLow
  | "close" => s.priceClose
  | "after_hours" => s.priceAfterHours
  | "pre_market" => s.pricePreMarket
  | _ => none

/-- One row of the long table: {ticker, date, price_type, price}. -/
structure LongRow where
  ticker : String
  date : String
  price_type : String
  price : Rat
  deriving DecidableEq, Repr

/-- The long DataFrame `stock_df_long`.  Besides its rows it records the
`ticker_currency` column that `create_stock_currency_report` assigns onto
the frame in place (`none` = column absent; the assignment broadcasts one
scalar, so one optional value models the whole column). -/
structure LongDF where
  rows : List LongRow
  ticker_currency_col : Option String
  deriving DecidableEq, Repr

/-- `df.rename(columns={"afterHours": "after_hours", "preMarket": "pre_market"})`. -/
def rename_columns (r : WideRow) : WideRow :=
  { r with prices := r.prices.map (fun p =>
      (if p.1 = "afterHours" then "after_hours"
       else if p.1 = "preMarket" then "pre_market" else p.1, p.2)) }

/-- The fixed `price_columns` list of `create_price_types_df`. -/
def price_columns : List String :=
  ["open", "high", "low", "close", "after_hours", "pre_market"]

/-- `df[c]` for the single wide row: the value of column `c` when present. -/
def lookupCol (prices : List (String × Rat)) (c : String) : Option Rat :=
  (prices.find? (fun p => p.1 = c)).map Prod.snd

/-- `create_price_types_df` on the single-row wide frame: rename the two
provider columns, keep the price columns that are present in the fixed
order, and melt into long format with `id_vars=["symbol","from"]`,
renaming `symbol → ticker`, `from → date`.  If no price column is present
it returns the empty frame with the long columns. -/
def create_price_types_df (r : WideRow) : LongDF :=
  let r2 := rename_columns r
  let available_columns := price_columns.filter
    (fun c => (lookupCol r2.prices c).isSome)
  if available_columns.isEmpty then ⟨[], none⟩
  else
    ⟨available_columns.filterMap (fun c => (lookupCol r2.prices c).map
        (fun v => { ticker := r2.symbol, date := r2.fromDate,
                    price_type := c, price := v })), none⟩

/-- Python's `str.upper()` on the character sequence (the inputs here are
ASCII currency codes, for which `Char.toUpper` coincides with Python). -/
def py_upper (s : String) : String := ⟨s.data.map Char.toUpper⟩

/-- One entry of the rate table: {currency, exchange_rate}. -/
structure RateRow where
  currency : String
  exchange_rate : Rat
  deriving DecidableEq, Repr

/-- One row of the final report. -/
structure ReportRow where
  date : String
  ticker : String
  price_type : String
  ticker_currency : String
  price : Rat
  currency : String
  exchange_rate : Rat
  currency_price : Rat
  deriving DecidableEq, Repr

/-- `create_stock_currency_report`.  The first line,
`stock_df_long["ticker_currency"] = stock_currency.upper()`, assigns a
column onto the caller's frame in place, so the embedding returns the
post-call state of `stock_df_long` together with the report.  The report
is the cross merge (each left row paired with every right row, left-major)
with `currency_price = price * exchange_rate` and the final column
selection baked into `ReportRow`. -/
def create_stock_currency_report (stock_df_long : LongDF)
    (exchange_rates_df : List RateRow) (stock_currency : String) :
    LongDF × List ReportRow :=
  let mutated : LongDF :=
    { stock_df_long with ticker_currency_col := some (py_upper stock_currency) }
  let merged : List ReportRow :=
    mutated.rows.flatMap (fun l => exchange_rates_df.map (fun e =>
      { date := l.date, ticker := l.ticker, price_type := l.price_type,
        ticker_currency := py_upper stock_currency, price := l.price,
        currency := e.currency, exchange_rate := e.exchange_rate,
        currency_price := l.price * e.exchange_rate }))
  (mutated, merged)

/-- What the external world drives `fetch_stock_data` into:
`netError` — `requests.get` or `raise_for_status` raises a
`RequestException` (network failure or non-success status);
`invalidJson` — `response.json()` raises `ValueError`;
`parsed isDict s` — JSON parsed; when `isDict`, the body's price fields are
those of `s` (a present key of the dict is a `some` field). -/
inductive StockApiResult where
  | netError
  | invalidJson
  | parsed (isDict : Bool) (s : PriceSnapshot)
  deriving DecidableEq, Repr

/-- `fetch_stock_data`: every `except` branch logs and falls through to
`return None`, and so does the well-formed-but-no-data branch; only a dict
body with both `"open"` and `"close"` yields `pd.DataFrame([data])`. -/
def fetch_stock_data : StockApiResult → Option WideRow
  | .netError => none
  | .invalidJson => none
  | .parsed isDict s =>
      if isDict && s.priceOpen.isSome && s.priceClose.isSome
      then some s.toWide else none

/-- What the reference provider drives `fetch_currency_name` into:
`netError` — `requests.get` (or `.json()`) raises; `response st hr hc nm` —
a response with status `st` whose parsed body has a `results` key iff `hr`,
a `results.currency_name` key iff `hc`, with value `nm`. -/
inductive RefApiResult where
  | netError
  | response (status : Nat) (hasResults : Bool) (hasCurrencyName : Bool)
      (currency_name : String)
  deriving DecidableEq, Repr

/-- The body of `fetch_currency_name` up to (not including) its
`except Exception` handler: `.error` is a Python exception in flight —
either the propagating `requests` exception or the function's own
`raise ValueError(...)` on a 200 response that lacks
`results.currency_name`; `.ok` is a normal `return`. -/
def fetch_currency_name_body (ticker : String) :
    RefApiResult → Except String (Option String)
  | .netError => .error "requests exception"
  | .response status hasResults hasCurrencyName nm =>
      if status = 200 then
        if hasResults && hasCurrencyName then .ok (some nm)
        else .error ("Currency information for " ++ ticker ++ " not found.")
      else .ok (some "")

/-- `fetch_currency_name`: the `except Exception` handler catches every
exception of the body — including the function's own `raise ValueError` —
logs it and returns `None`. -/
def fetch_currency_name (ticker : String) (r : RefApiResult) : Option String :=
  match fetch_currency_name_body ticker r with
  | .ok v => v
  | .error _ => none

/-- What the FX provider drives `fetch_latest_currency_rates` into:
`netError` — `requests.get` (or `.json()`) raises; `response st rates` —
a response with status `st` whose body's `"rates"` object is `rates`
(`data.get("rates", {})`, so a missing key is the empty list). -/
inductive FxApiResult where
  | netError
  | response (status : Nat) (rates : List (String × Rat))
  deriving DecidableEq, Repr

/-- `fetch_latest_currency_rates`: status 200 turns the `rates` items into
the {currency, exchange_rate} frame; any other status logs and returns the
EMPTY frame; an exception logs and returns `None`. -/
def fetch_latest_currency_rates : FxApiResult → Option (List RateRow)
  | .netError => none
  | .response status rates =>
      if status = 200 then some (rates.map (fun p => ⟨p.1, p.2⟩))
      else some []

/-- The component outcomes `main` is run against: the parsed CLI ticker,
the three providers' behaviour, whether `create_price_types_df` hits its
`except Exception` branch (e.g. `melt` raising because the wide frame
lacks `symbol`/`from`) and returns `None`, and whether
`fetch_available_currencies` returns `None`. -/
structure PipelineEnv where
  ticker : String
  stockResult : StockApiResult
  reshapeFails : Bool
  refResult : RefApiResult
  availIsNone : Bool
  fxResult : FxApiResult
  deriving Repr

/-- Terminal states of `main`: the three logged `return`s, a successful
CSV write of the report, the bottom `except ValueError` handler, and an
exception escaping `main` entirely. -/
inductive MainResult where
  | abortNoStock
  | abortNoCurrency
  | abortNoRates
  | wrote (report : List ReportRow)
  | caughtValueError (msg : String)
  | uncaught (exc : String)
  deriving DecidableEq, Repr

/-- The source's `main` after argument parsing (renamed: `main` is reserved).  Step order and checks follow the
source: stock fetch (`None` → logged return); reshape (result unchecked);
currency fetch (falsy — `None` or `""` — → logged return); available
currencies (`None` → warning only); rate fetch (`None` → logged return);
report build, whose own `except Exception` turns the `TypeError` raised on
a `None` `stock_df_long` into a returned `None`; finally
`df_stock_currency.to_csv(...)`, which on a `None` report raises an
`AttributeError` that the surrounding `except ValueError` does not catch. -/
def mainDriver (e : PipelineEnv) : MainResult :=
  match fetch_stock_data e.stockResult with
  | none => .abortNoStock
  | some wide =>
    let stock_df_long : Option LongDF :=
      if e.reshapeFails then none else some (create_price_types_df wide)
    match fetch_currency_name e.ticker e.refResult with
    | none => .abortNoCurrency
    | some stock_currency =>
      if stock_currency = "" then .abortNoCurrency
      else
        match fetch_latest_currency_rates e.fxResult with
        | none => .abortNoRates
        | some exchange_rates_df =>
          let df_stock_currency : Option (List ReportRow) :=
            match stock_df_long with
            | none => none
            | some df =>
                some (create_stock_currency_report df exchange_rates_df
                  stock_currency).2
          match df_stock_currency with
          | some rep => .wrote rep
          | none => .uncaught "AttributeError: to_csv on None"

/-- A snapshot with both `open` and `close` present — a body on which
`fetch_stock_data` succeeds. -/
def okSnap : PriceSnapshot :=
  ⟨"AAPL", "2024-10-03", some 150, none, none, some 152, none, none⟩

/-- A well-formed dict body with no trading data (no price field at all):
the "market closed" case. -/
def noDataSnap : PriceSnapshot :=
  ⟨"AAPL", "2024-10-03", none, none, none, none, none, none⟩

/-- Pipeline run in which the reference provider answers HTTP 200 without
`results.currency_name`; everything upstream succeeds. -/
def envMissingField : PipelineEnv :=
  ⟨"AAPL", .parsed true okSnap, false, .response 200 true false "x", false,
   .response 200 []⟩

/-- Pipeline run in which the FX provider answers with HTTP 404;
everything else succeeds. -/
def envHttpRateError : PipelineEnv :=
  ⟨"AAPL", .parsed true okSnap, false, .response 200 true true "usd", false,
   .response 404 [("EUR", 2)]⟩

/-- Pipeline run in which `create_price_types_df` hits its
`except Exception` branch and returns `None` while every fetch succeeds. -/
def envReshapeFails : PipelineEnv :=
  ⟨"AAPL", .parsed true okSnap, true, .response 200 true true "usd", false,
   .response 200 [("EUR", 2)]⟩

/-- Pipeline run in which the FX call raises a network exception;
everything else succeeds. -/
def envFxNetError : PipelineEnv :=
  ⟨"AAPL", .parsed true okSnap, false, .response 200 true true "usd", false,
   .netError⟩

/-- The snapshot's six price fields with their long-format names, in the
fixed order of `price_columns`. -/
def sixPairs (s : PriceSnapshot) : List (String × Option Rat) :=
  [("open", s.priceOpen), ("high", s.priceHigh), ("low", s.priceLow),
   ("close", s.priceClose), ("after_hours", s.priceAfterHours),
   ("pre_market", s.pricePreMarket)]

/-- Normal form of the reshaper's output on a snapshot's wide row: one long
row per present field, in field order. -/
theorem reshaper_rows_eq (s : PriceSnapshot) :
    (create_price_types_df s.toWide).rows =
      (sixPairs s).filterMap (fun p => p.2.map (fun v =>
        (⟨s.ticker, s.date, p.1, v⟩ : LongRow))) := by
  obtain ⟨tk, dt, o, hg, lw, cl, ah, pm⟩ := s
  cases o <;> cases hg <;> cases lw <;> cases cl <;> cases ah <;> cases pm <;>
    rfl

theorem reshaper_len_eq (s : PriceSnapshot) :
    (create_price_types_df s.toWide).rows.length = s.numFields := by
  obtain ⟨tk, dt, o, hg, lw, cl, ah, pm⟩ := s
  cases o <;> cases hg <;> cases lw <;> cases cl <;> cases ah <;> cases pm <;>
    rfl

theorem reshaper_map_eq (s : PriceSnapshot) :
    (create_price_types_df s.toWide).rows.map LongRow.price_type
      = price_columns.filter (fun c => (s.fieldByType c).isSome) := by
  obtain ⟨tk, dt, o, hg, lw, cl, ah, pm⟩ := s
  cases o <;> cases hg <;> cases lw <;> cases cl <;> cases ah <;> cases pm <;>
    rfl

theorem reshaper_mem (s : PriceSnapshot) :
    ∀ row ∈ (create_price_types_df s.toWide).rows,
      row.ticker = s.ticker ∧ row.date = s.date
      ∧ s.fieldByType row.price_type = some row.price := by
  rw [reshaper_rows_eq]
  intro row hrow
  rw [List.mem_filterMap] at hrow
  obtain ⟨⟨c, oval⟩, hmem, heq⟩ := hrow
  cases oval with
  | none => simp at heq
  | some v =>
    obtain rfl : (⟨s.ticker, s.date, c, v⟩ : LongRow) = row := by
      simpa using heq
    refine ⟨rfl, rfl, ?_⟩
    simp only [sixPairs, List.mem_cons, List.not_mem_nil, or_false,
      Prod.mk.injEq] at hmem
    rcases hmem with ⟨rfl, hv⟩ | ⟨rfl, hv⟩ | ⟨rfl, hv⟩ | ⟨rfl, hv⟩ |
      ⟨rfl, hv⟩ | ⟨rfl, hv⟩ <;> exact hv.symm

/-- C1: for every price snapshot with `k` non-null price fields,
`create_price_types_df` produces exactly `k` long rows; their
`price_type`s are exactly the present fields in the fixed order
open, high, low, close, after_hours, pre_market (hence pairwise
distinct); and every row carries the snapshot's ticker and date and the
price of the field its `price_type` names. -/
theorem C1_reshaper_long_rows (s : PriceSnapshot) :
    ((create_price_types_df s.toWide).rows).length = s.numFields
    ∧ ((create_price_types_df s.toWide).rows.map LongRow.price_type)
        = price_columns.filter (fun c => (s.fieldByType c).isSome)
    ∧ ((create_price_types_df s.toWide).rows.map LongRow.price_type).Nodup
    ∧ ∀ row ∈ (create_price_types_df s.toWide).rows,
        row.ticker = s.ticker ∧ row.date = s.date
        ∧ s.fieldByType row.price_type = some row.price := by
  refine ⟨reshaper_len_eq s, reshaper_map_eq s, ?_, reshaper_mem s⟩
  rw [reshaper_map_eq]
  exact (by decide : price_columns.Nodup).filter _

/-- C1 witness: the theorem instantiated at a concrete snapshot with two
non-null fields. -/
theorem C1_reshaper_long_rows_witness :
    ((create_price_types_df (PriceSnapshot.toWide
        ⟨"AAPL", "2024-10-03", some 150, none, none, some 152, none,
         none⟩)).rows).length =
      (PriceSnapshot.numFields
        ⟨"AAPL", "2024-10-03", some 150, none, none, some 152, none, none⟩)
    ∧ ((create_price_types_df (PriceSnapshot.toWide
        ⟨"AAPL", "2024-10-03", some 150, none, none, some 152, none,
         none⟩)).rows.map LongRow.price_type)
        = price_columns.filter (fun c => (PriceSnapshot.fieldByType
            ⟨"AAPL", "2024-10-03", some 150, none, none, some 152, none,
             none⟩ c).isSome)
    ∧ ((create_price_types_df (PriceSnapshot.toWide
        ⟨"AAPL", "2024-10-03", some 150, none, none, some 152, none,
         none⟩)).rows.map LongRow.price_type).Nodup
    ∧ ∀ row ∈ (create_price_types_df (PriceSnapshot.toWide
        ⟨"AAPL", "2024-10-03", some 150, none, none, some 152, none,
         none⟩)).rows,
        row.ticker = "AAPL" ∧ row.date = "2024-10-03"
        ∧ PriceSnapshot.fieldByType
            ⟨"AAPL", "2024-10-03", some 150, none, none, some 152, none,
             none⟩ row.price_type = some row.price :=
  C1_reshaper_long_rows
    ⟨"AAPL", "2024-10-03", some 150, none, none, some 152, none, none⟩

/-- The report is definitionally the left-major cross product. -/
theorem report_rows_def (df : LongDF) (rates : List RateRow) (cur : String) :
    (create_stock_currency_report df rates cur).2 =
      df.rows.flatMap (fun l => rates.map (fun e =>
        ({date := l.date, ticker := l.ticker, price_type := l.price_type,
          ticker_currency := py_upper cur, price := l.price,
          currency := e.currency, exchange_rate := e.exchange_rate,
          currency_price := l.price * e.exchange_rate} : ReportRow))) := rfl

theorem length_flatMap_map {α β γ : Type} (rows : List α) (inner : List β)
    (g : α → β → γ) :
    (rows.flatMap (fun l => inner.map (g l))).length
      = rows.length * inner.length := by
  induction rows with
  | nil => simp
  | cons a t ih =>
      simp only [List.flatMap_cons, List.length_append, List.length_map,
        List.length_cons, ih, Nat.succ_mul]
      exact Nat.add_comm _ _

/-- C2: the report of `create_stock_currency_report` has exactly
(number of long rows) × (number of rate entries) rows, and a rate table
with zero entries yields the empty report as a value, not an error. -/
theorem C2_report_size (df : LongDF) (rates : List RateRow) (cur : String) :
    (create_stock_currency_report df rates cur).2.length
      = df.rows.length * rates.length
    ∧ (create_stock_currency_report df [] cur).2 = [] := by
  constructor
  · rw [report_rows_def]
    exact length_flatMap_map _ _ _
  · rw [report_rows_def]
    induction df.rows with
    | nil => rfl
    | cons a t ih => simp

/-- C2 witness: the theorem instantiated at a one-row long table and a
two-entry rate table (2 = 1 × 2 report rows; zero rates give `[]`). -/
theorem C2_report_size_witness :
    (create_stock_currency_report ⟨[⟨"AAPL", "2024-10-03", "open", 150⟩],
        none⟩ [⟨"EUR", 2⟩, ⟨"GBP", 3⟩] "usd").2.length
      = (LongDF.mk [⟨"AAPL", "2024-10-03", "open", 150⟩] none).rows.length *
          [(⟨"EUR", 2⟩ : RateRow), ⟨"GBP", 3⟩].length
    ∧ (create_stock_currency_report ⟨[⟨"AAPL", "2024-10-03", "open", 150⟩],
        none⟩ [] "usd").2 = [] :=
  C2_report_size ⟨[⟨"AAPL", "2024-10-03", "open", 150⟩], none⟩
    [⟨"EUR", 2⟩, ⟨"GBP", 3⟩] "usd"

/-- C3: in every report row, `currency_price` is exactly the product of
`price` and `exchange_rate` (exact in `Rat`, hence within any relative
tolerance of the float computation's own semantics). -/
theorem C3_currency_price_product (df : LongDF) (rates : List RateRow)
    (cur : String) :
    ∀ r ∈ (create_stock_currency_report df rates cur).2,
      r.currency_price = r.price * r.exchange_rate := by
  intro r hr
  rw [report_rows_def, List.mem_flatMap] at hr
  obtain ⟨l, _, hr2⟩ := hr
  rw [List.mem_map] at hr2
  obtain ⟨e, _, rfl⟩ := hr2
  rfl

/-- C3 witness: the product invariant checked on a concrete report row. -/
theorem C3_currency_price_product_witness :
    (⟨"2024-10-03", "AAPL", "open", py_upper "usd", 150, "EUR", 2,
        150 * 2⟩ : ReportRow)
      ∈ (create_stock_currency_report
          ⟨[⟨"AAPL", "2024-10-03", "open", 150⟩], none⟩ [⟨"EUR", 2⟩]
          "usd").2
    ∧ (⟨"2024-10-03", "AAPL", "open", py_upper "usd", 150, "EUR", 2,
        150 * 2⟩ : ReportRow).currency_price
      = (⟨"2024-10-03", "AAPL", "open", py_upper "usd", 150, "EUR", 2,
          150 * 2⟩ : ReportRow).price *
        (⟨"2024-10-03", "AAPL", "open", py_upper "usd", 150, "EUR", 2,
          150 * 2⟩ : ReportRow).exchange_rate :=
  ⟨List.mem_cons_self _ _, C3_currency_price_product
    ⟨[⟨"AAPL", "2024-10-03", "open", 150⟩], none⟩ [⟨"EUR", 2⟩] "usd" _
    (List.mem_cons_self _ _)⟩

/-- C4: every report row carries the same `ticker_currency`, namely the
upper-cased `stock_currency` argument. -/
theorem C4_ticker_currency_constant (df : LongDF) (rates : List RateRow)
    (cur : String) :
    ∀ r ∈ (create_stock_currency_report df rates cur).2,
      r.ticker_currency = py_upper cur := by
  intro r hr
  rw [report_rows_def, List.mem_flatMap] at hr
  obtain ⟨l, _, hr2⟩ := hr
  rw [List.mem_map] at hr2
  obtain ⟨e, _, rfl⟩ := hr2
  rfl

/-- C4 witness: a concrete report row carries the upper-cased currency. -/
theorem C4_ticker_currency_constant_witness :
    (⟨"2024-10-03", "AAPL", "close", py_upper "usd", 152, "GBP", 3,
        152 * 3⟩ : ReportRow)
      ∈ (create_stock_currency_report
          ⟨[⟨"AAPL", "2024-10-03", "close", 152⟩], none⟩ [⟨"GBP", 3⟩]
          "usd").2
    ∧ (⟨"2024-10-03", "AAPL", "close", py_upper "usd", 152, "GBP", 3,
        152 * 3⟩ : ReportRow).ticker_currency = py_upper "usd" :=
  ⟨List.mem_cons_self _ _, C4_ticker_currency_constant
    ⟨[⟨"AAPL", "2024-10-03", "close", 152⟩], none⟩ [⟨"GBP", 3⟩] "usd" _
    (List.mem_cons_self _ _)⟩

/-- C9 counterexample: `create_stock_currency_report` does NOT leave its
`stock_df_long` argument unchanged — on a concrete one-row long frame
without a `ticker_currency` column, the frame after the call differs from
the frame before (the in-place column assignment of the source's line
`stock_df_long["ticker_currency"] = stock_currency.upper()`). -/
theorem C9_counterexample :
    (create_stock_currency_report ⟨[⟨"AAPL", "2024-10-03", "open", 150⟩],
        none⟩ [⟨"EUR", 2⟩] "usd").1
      ≠ ⟨[⟨"AAPL", "2024-10-03", "open", 150⟩], none⟩ := by decide

/-- C9 amended: the call leaves the rows (and hence the ticker, date,
price_type, price columns) of `stock_df_long` unchanged, but adds or
overwrites its `ticker_currency` column with the upper-cased stock
currency. -/
theorem C9_rows_preserved_column_added (df : LongDF) (rates : List RateRow)
    (cur : String) :
    (create_stock_currency_report df rates cur).1.rows = df.rows
    ∧ (create_stock_currency_report df rates cur).1.ticker_currency_col
        = some (py_upper cur) :=
  ⟨rfl, rfl⟩

/-- C9 amended witness: the amended claim at a concrete frame. -/
theorem C9_rows_preserved_column_added_witness :
    (create_stock_currency_report ⟨[⟨"AAPL", "2024-10-03", "open", 150⟩],
        none⟩ [⟨"EUR", 2⟩] "usd").1.rows
      = [⟨"AAPL", "2024-10-03", "open", 150⟩]
    ∧ (create_stock_currency_report ⟨[⟨"AAPL", "2024-10-03", "open", 150⟩],
        none⟩ [⟨"EUR", 2⟩] "usd").1.ticker_currency_col
      = some (py_upper "usd") :=
  C9_rows_preserved_column_added ⟨[⟨"AAPL", "2024-10-03", "open", 150⟩],
    none⟩ [⟨"EUR", 2⟩] "usd"

/-- C5 counterexample: `fetch_stock_data`'s outcome on a network failure
is the very same value (`None`) as its outcome on a well-formed response
lacking trading data, so the two are NOT distinct and a caller cannot tell
"market closed" from "provider unreachable" by inspecting the result. -/
theorem C5_counterexample :
    fetch_stock_data .netError = fetch_stock_data (.parsed true noDataSnap)
    ∧ fetch_stock_data .netError = none
    ∧ fetch_stock_data .invalidJson = none := ⟨rfl, rfl, rfl⟩

/-- C5 amended: every failure path of `fetch_stock_data` — network error
(including non-success HTTP status via `raise_for_status`), malformed
JSON, a non-dict body, or a dict body missing `"open"` — returns the one
value `None`; the cases are distinguished only in log messages. -/
theorem C5_all_failures_return_none :
    fetch_stock_data .netError = none
    ∧ fetch_stock_data .invalidJson = none
    ∧ (∀ s : PriceSnapshot, fetch_stock_data (.parsed false s) = none)
    ∧ (∀ s : PriceSnapshot, s.priceOpen = none →
        fetch_stock_data (.parsed true s) = none) := by
  refine ⟨rfl, rfl, fun s => rfl, fun s h => ?_⟩
  simp [fetch_stock_data, h]

/-- C5 amended witness: the missing-"open" hypothesis discharged at the
concrete no-data snapshot. -/
theorem C5_all_failures_return_none_witness :
    noDataSnap.priceOpen = none
    ∧ fetch_stock_data (.parsed true noDataSnap) = none :=
  ⟨rfl, C5_all_failures_return_none.2.2.2 noDataSnap rfl⟩

/-- C6 counterexample: on HTTP 200 without `results.currency_name` the
resolver's internal `raise ValueError` is swallowed by its own
`except Exception` handler: `fetch_currency_name` RETURNS the plain value
`None` — the same value it returns for a network exception — rather than
propagating a distinct fatal condition. -/
theorem C6_counterexample :
    fetch_currency_name_body "AAPL" (.response 200 true false "x")
      = .error ("Currency information for " ++ "AAPL" ++ " not found.")
    ∧ fetch_currency_name "AAPL" (.response 200 true false "x") = none
    ∧ fetch_currency_name "AAPL" (.response 200 true false "x")
      = fetch_currency_name "AAPL" .netError := ⟨rfl, rfl, rfl⟩

/-- C6 amended: on HTTP 200 lacking `results.currency_name` the resolver
raises `ValueError` internally but catches it itself and returns `None` —
distinct from the empty string of the non-success-status path, though
identical to the network-error outcome — and the Pipeline Driver, finding
the result falsy, logs and aborts before fetching rates or writing. -/
theorem C6_missing_field_caught (e : PipelineEnv) (hr : Bool) (nm : String)
    (href : e.refResult = .response 200 hr false nm)
    (w : WideRow) (hs : fetch_stock_data e.stockResult = some w) :
    (∃ msg, fetch_currency_name_body e.ticker e.refResult = .error msg)
    ∧ fetch_currency_name e.ticker e.refResult = none
    ∧ fetch_currency_name e.ticker e.refResult ≠ some ""
    ∧ mainDriver e = .abortNoCurrency := by
  have hbody : fetch_currency_name_body e.ticker e.refResult
      = .error ("Currency information for " ++ e.ticker ++ " not found.") := by
    rw [href]
    simp [fetch_currency_name_body]
  have hfetch : fetch_currency_name e.ticker e.refResult = none := by
    rw [fetch_currency_name, hbody]
  refine ⟨⟨_, hbody⟩, hfetch, by simp [hfetch], ?_⟩
  simp only [mainDriver, hs, hfetch]

/-- C6 amended witness: hypotheses discharged on the concrete
missing-field run. -/
theorem C6_missing_field_caught_witness :
    (envMissingField.refResult = .response 200 true false "x")
    ∧ (fetch_stock_data envMissingField.stockResult = some okSnap.toWide)
    ∧ ((∃ msg, fetch_currency_name_body envMissingField.ticker
          envMissingField.refResult = .error msg)
       ∧ fetch_currency_name envMissingField.ticker
           envMissingField.refResult = none
       ∧ fetch_currency_name envMissingField.ticker
           envMissingField.refResult ≠ some ""
       ∧ mainDriver envMissingField = .abortNoCurrency) :=
  ⟨rfl, rfl,
   C6_missing_field_caught envMissingField true "x" rfl okSnap.toWide rfl⟩

/-- The report of a rate table with zero entries is empty. -/
theorem report_rates_nil (df : LongDF) (cur : String) :
    (create_stock_currency_report df [] cur).2 = [] := by
  rw [report_rows_def]
  induction df.rows with
  | nil => rfl
  | cons a t ih => simp

/-- C7: when the FX provider answers a non-success HTTP status,
`fetch_latest_currency_rates` returns the empty rate table (not `None`,
not an error), and the pipeline proceeds to write a report with zero
rows instead of crashing or aborting. -/
theorem C7_http_error_empty_rates (e : PipelineEnv) (st : Nat)
    (body : List (String × Rat))
    (hfx : e.fxResult = .response st body) (hst : st ≠ 200)
    (w : WideRow) (hs : fetch_stock_data e.stockResult = some w)
    (hrs : e.reshapeFails = false)
    (c : String) (hc : fetch_currency_name e.ticker e.refResult = some c)
    (hc0 : c ≠ "") :
    fetch_latest_currency_rates e.fxResult = some []
    ∧ mainDriver e = .wrote [] := by
  have hrates : fetch_latest_currency_rates e.fxResult = some [] := by
    rw [hfx]
    simp [fetch_latest_currency_rates, hst]
  refine ⟨hrates, ?_⟩
  simp only [mainDriver, hs, hc, hrates, hrs, if_neg hc0, if_false]
  simp [report_rates_nil]

/-- C7 witness: hypotheses discharged on the concrete HTTP-404 FX run. -/
theorem C7_http_error_empty_rates_witness :
    (envHttpRateError.fxResult = .response 404 [("EUR", 2)])
    ∧ (404 : Nat) ≠ 200
    ∧ (fetch_stock_data envHttpRateError.stockResult = some okSnap.toWide)
    ∧ envHttpRateError.reshapeFails = false
    ∧ (fetch_currency_name envHttpRateError.ticker
        envHttpRateError.refResult = some "usd")
    ∧ "usd" ≠ ""
    ∧ (fetch_latest_currency_rates envHttpRateError.fxResult = some []
       ∧ mainDriver envHttpRateError = .wrote []) :=
  ⟨rfl, by decide, rfl, rfl, rfl, by decide,
   C7_http_error_empty_rates envHttpRateError 404 [("EUR", 2)] rfl
     (by decide) okSnap.toWide rfl rfl "usd" rfl (by decide)⟩

/-- C8: evaluation of the Pipeline Driver at the failing combination of
component outcomes: every fetch succeeds but the reshaper hits its
`except Exception` branch and returns `None`; `create_stock_currency_report`
then converts the resulting `TypeError` into a returned `None`, and
`df_stock_currency.to_csv(...)` raises an `AttributeError` that the
driver's `except ValueError` does not catch — an unhandled condition
escapes the Pipeline Driver boundary, contradicting the claim. -/
theorem C8_uncaught_attribute_error :
    mainDriver envReshapeFails = .uncaught "AttributeError: to_csv on None" :=
  rfl

/-- C10: a network exception during the FX call makes
`fetch_latest_currency_rates` return `None`, which the Pipeline Driver
treats as fatal (logged abort, nothing written), whereas any non-success
HTTP status yields the non-fatal empty rate table. -/
theorem C10_transport_vs_http (e : PipelineEnv)
    (hfx : e.fxResult = .netError)
    (w : WideRow) (hs : fetch_stock_data e.stockResult = some w)
    (c : String) (hc : fetch_currency_name e.ticker e.refResult = some c)
    (hc0 : c ≠ "") :
    fetch_latest_currency_rates e.fxResult = none
    ∧ mainDriver e = .abortNoRates
    ∧ (∀ (st : Nat) (body : List (String × Rat)), st ≠ 200 →
        fetch_latest_currency_rates (.response st body) = some []) := by
  have hnone : fetch_latest_currency_rates e.fxResult = none := by
    rw [hfx]
    rfl
  refine ⟨hnone, ?_, fun st body h => by
    simp [fetch_latest_currency_rates, h]⟩
  simp only [mainDriver, hs, hc, hnone, if_neg hc0, if_false]

/-- C10 witness: hypotheses discharged on the concrete FX-network-failure
run. -/
theorem C10_transport_vs_http_witness :
    (envFxNetError.fxResult = .netError)
    ∧ (fetch_stock_data envFxNetError.stockResult = some okSnap.toWide)
    ∧ (fetch_currency_name envFxNetError.ticker envFxNetError.refResult
        = some "usd")
    ∧ "usd" ≠ ""
    ∧ (fetch_latest_currency_rates envFxNetError.fxResult = none
       ∧ mainDriver envFxNetError = .abortNoRates
       ∧ (∀ (st : Nat) (body : List (String × Rat)), st ≠ 200 →
           fetch_latest_currency_rates (.response st body) = some [])) :=
  ⟨rfl, rfl, rfl, by decide,
   C10_transport_vs_http envFxNetError rfl okSnap.toWide rfl "usd" rfl
     (by decide)⟩
